import Mathlib

/-!
Verification of the mood-melody single-page application (src/src/App.jsx).

The app orchestrates two external HTTP APIs behind a form-and-list UI:
`getRecommendations` prompts a generative-text API and parses its reply as a
JSON array of song records, and `playSong` looks a song up on a video-search
API, opening an inline overlay on success and an external search page on any
failure.  `closePlayer` dismisses the overlay.

We embed the three handlers as pure state-transition functions.  External
black boxes (the browser's `JSON.parse`, `encodeURIComponent`, and the two
network endpoints) are passed in as oracles/parameters; everything the
repository's own code does (truthiness checks, fence-stripping, state
updates, the fallback URL construction) is translated literally.
-/

namespace MoodMelody

/-- JSON values, as produced by the browser's `JSON.parse`.  Numbers are kept
abstract as integers; no claim depends on numeric semantics. -/
inductive Json where
  | null : Json
  | bool (b : Bool) : Json
  | num (n : Int) : Json
  | str (s : String) : Json
  | arr (elems : List Json) : Json
  | obj (fields : List (String × Json)) : Json

/-- Whether a JSON value is an object (`{...}`). -/
def Json.isObj : Json → Bool
  | .obj _ => true
  | _ => false

/-- Whether a JSON value is an array all of whose elements are objects.
This follows the spec's phrase "valid JSON array of objects"; the source
itself performs no such check, and the definition exists to state that
divergence. -/
def isArrayOfObjects : Json → Bool
  | .arr l => l.all Json.isObj
  | _ => false

/-- JavaScript truthiness of an optional string (`undefined` and `""` are
falsy, every other string is truthy).  Models `!apiKey` / `!youtubeKey`. -/
def optTruthy : Option String → Bool
  | none => false
  | some s => !(s == "")

/-! ### JavaScript string primitives

The handlers use `String.prototype.trim`, global literal `replace`, and
`String.prototype.includes`.  We implement them by structural recursion on
the character list so that concrete witnesses evaluate inside the kernel. -/

/-- The whitespace characters stripped by JavaScript `trim` (ASCII
whitespace plus NBSP and BOM; other rare Unicode space separators, which
never occur in the inputs considered here, are elided). -/
def isJsWhitespace (c : Char) : Bool :=
  c == ' ' || c == '\t' || c == '\n' || c == '\r' ||
    c == '\x0b' || c == '\x0c' || c == '\xa0' ||
    c == '\u2028' || c == '\u2029' || c == '\ufeff'

/-- JavaScript `s.trim()`: strip leading and trailing whitespace. -/
def jsTrim (s : String) : String :=
  ⟨((s.data.dropWhile isJsWhitespace).reverse.dropWhile
      isJsWhitespace).reverse⟩

/-- One fuelled left-to-right pass removing every (non-overlapping)
occurrence of `needle` from `l`; `fuel ≥ l.length` suffices since each
step consumes at least one character (the needles used are non-empty). -/
def removeAllAux (needle : List Char) : Nat → List Char → List Char
  | 0, l => l
  | _ + 1, [] => []
  | fuel + 1, c :: cs =>
      if needle.isPrefixOf (c :: cs) then
        removeAllAux needle fuel (List.drop needle.length (c :: cs))
      else
        c :: removeAllAux needle fuel cs

/-- JavaScript `s.replace(/needle/g, '')` for a literal `needle`: remove
every occurrence, scanning left to right. -/
def jsRemoveAll (s needle : String) : String :=
  ⟨removeAllAux needle.data s.data.length s.data⟩

/-- Substring test on character lists, by structural recursion. -/
def charsInclude : List Char → List Char → Bool
  | [], needle => needle.isEmpty
  | c :: cs, needle => needle.isPrefixOf (c :: cs) || charsInclude cs needle

/-- JavaScript `hay.includes(needle)`: substring containment. -/
def jsIncludes (hay needle : String) : Bool :=
  charsInclude hay.data needle.data

/-- A thrown JavaScript error; `message` may be `undefined` (`none`). -/
structure JsError where
  message : Option String
deriving DecidableEq, Repr

/-- JavaScript `err.message || default`: the fallback is used when the
message is `undefined` or the empty string (both falsy). -/
def messageOr : Option String → String → String
  | some m, d => if m = "" then d else m
  | none, d => d

/-! ## Recommendation flow (`getRecommendations`, App.jsx lines 68-132) -/

/-- The three pieces of component state touched by `getRecommendations`:
`songs` (initially `null`), the `loading` flag, and the `error` message. -/
structure RecState where
  songs : Option Json
  loading : Bool
  error : String

/-- Initial recommendation-related state of the component
(`useState(null)`, `useState(false)`, `useState('')`). -/
def initRecState : RecState :=
  { songs := none, loading := false, error := "" }

/-- App.jsx line 116: strip markdown code fences and trim, literally
`text.replace(/```json/g, '').replace(/```/g, '').trim()`. -/
def stripFences (text : String) : String :=
  jsTrim (jsRemoveAll (jsRemoveAll text "```json") "```")

/-- Outcome of `model.generateContent(prompt)` plus `response.text()`:
either the SDK throws a `JsError`, or it yields the response text. -/
def GenOutcome := Except JsError String

/-- Result of one `getRecommendations` call: the final component state and
the number of network (SDK) calls issued. -/
structure RecResult where
  state : RecState
  netCalls : Nat

/-- Shallow embedding of `getRecommendations` (App.jsx lines 68-132).

* `apiKey` — `import.meta.env.VITE_GEMINI_API_KEY` (`none` = undefined);
* `mood` — the mood text state;
* `net` — outcome of the single `generateContent` call, were it issued;
* `parse` — the browser's `JSON.parse` as an oracle: `none` means a
  `SyntaxError` is thrown, `some j` a successful parse;
* `s` — the component state on entry.

Line-by-line: line 69 `if (!mood.trim()) return;`; lines 70-73 missing-key
short circuit; lines 75-77 `setLoading(true); setError(''); setSongs(null)`;
lines 111-120 response text, fence-stripping, `JSON.parse`, `setSongs`;
lines 121-125 inner catch setting the malformed-response message; lines
126-128 outer catch setting `Failed: ...`; lines 129-131 `finally
setLoading(false)`. -/
def getRecommendations (apiKey : Option String) (mood : String)
    (net : Except JsError String) (parse : String → Option Json)
    (s : RecState) : RecResult :=
  if jsTrim mood == "" then
    { state := s, netCalls := 0 }
  else if !(optTruthy apiKey) then
    { state := { s with
        error := "Please provide a Gemini API Key to get recommendations." },
      netCalls := 0 }
  else
    let s₁ : RecState := { songs := none, loading := true, error := "" }
    match net with
    | .error err =>
        { state := { s₁ with
            error := "Failed: " ++ messageOr err.message "Check API key",
            loading := false },
          netCalls := 1 }
    | .ok text =>
        let cleaned := stripFences text
        match parse cleaned with
        | some data =>
            { state := { s₁ with songs := some data, loading := false },
              netCalls := 1 }
        | none =>
            { state := { s₁ with
                error :=
                  "Received a malformed response from Gemini. Please try again.",
                loading := false },
              netCalls := 1 }

/-! ## Playback flow (`playSong`, `closePlayer`, App.jsx lines 25-66) -/

/-- A song recommendation record as used by `playSong`: only `title` and
`artist` participate in the query and fallback URL. -/
structure Song where
  title : String
  artist : String
deriving DecidableEq, Repr

/-- Playback-related component state: the `playing` flag and the current
video identifier (`null` when unset). -/
structure PlayState where
  playing : Bool
  currentVideo : Option String
deriving DecidableEq, Repr

/-- Outcome of the YouTube search `fetch` + `response.json()`:
either the request throws, or it yields a payload with a (truthy-or-not)
`error` field and an optional `items` array of video identifiers. -/
inductive YtOutcome where
  | thrown (err : JsError) : YtOutcome
  | payload (error : Bool) (items : Option (List String)) : YtOutcome
deriving DecidableEq, Repr

/-- The external fallback URL (App.jsx lines 28, 43, 53, 59):
`https://www.youtube.com/results?search_query=` ++
`encodeURIComponent(`${song.title} ${song.artist}`)`.  `enc` is the
browser's `encodeURIComponent`. -/
def fallbackUrl (enc : String → String) (song : Song) : String :=
  "https://www.youtube.com/results?search_query=" ++
    enc (song.title ++ " " ++ song.artist)

/-- The search query string (App.jsx line 35):
`` `${song.title} ${song.artist} official audio` ``. -/
def searchQuery (song : Song) : String :=
  song.title ++ " " ++ song.artist ++ " official audio"

/-- App.jsx line 27: the no-credential guard
`!youtubeKey || youtubeKey.includes('your_youtube_api_key')`. -/
def missingYtKey (youtubeKey : Option String) : Bool :=
  !(optTruthy youtubeKey) ||
    (match youtubeKey with
     | some k => jsIncludes k "your_youtube_api_key"
     | none => false)

/-- Result of one `playSong` call: final playback state, the list of URLs
passed to `window.open` (in order), and the number of network calls. -/
structure PlayResult where
  state : PlayState
  opened : List String
  netCalls : Nat
deriving DecidableEq, Repr

/-- Shallow embedding of `playSong` (App.jsx lines 25-61).

* `enc` — the browser's `encodeURIComponent`;
* `youtubeKey` — `import.meta.env.VITE_YOUTUBE_API_KEY`;
* `resp` — outcome of the search `fetch`, were it issued;
* `song` — the clicked recommendation;
* `s` — playback state on entry.

Line-by-line: lines 27-30 credential guard with immediate fallback; line 32
`setPlaying(true)`; lines 39-45 `data.error` branch (`setPlaying(false)`,
fallback); lines 47-48 success (`setCurrentVideo(data.items[0].id.videoId)`);
lines 49-54 empty/missing `items` fallback; lines 55-60 catch fallback. -/
def playSong (enc : String → String) (youtubeKey : Option String)
    (resp : YtOutcome) (song : Song) (s : PlayState) : PlayResult :=
  if missingYtKey youtubeKey then
    { state := s, opened := [fallbackUrl enc song], netCalls := 0 }
  else
    let s₁ : PlayState := { s with playing := true }
    match resp with
    | .thrown _ =>
        { state := { s₁ with playing := false },
          opened := [fallbackUrl enc song], netCalls := 1 }
    | .payload err items =>
        if err then
          { state := { s₁ with playing := false },
            opened := [fallbackUrl enc song], netCalls := 1 }
        else
          match items with
          | some (v :: _) =>
              { state := { s₁ with currentVideo := some v },
                opened := [], netCalls := 1 }
          | _ =>
              { state := { s₁ with playing := false },
                opened := [fallbackUrl enc song], netCalls := 1 }

/-- Shallow embedding of `closePlayer` (App.jsx lines 63-66):
`setPlaying(false); setCurrentVideo(null)`. -/
def closePlayer (_s : PlayState) : PlayState :=
  { playing := false, currentVideo := none }

/-- The overlay render condition (App.jsx line 266):
`playing && currentVideo` under JavaScript truthiness. -/
def overlayVisible (s : PlayState) : Bool :=
  s.playing && optTruthy s.currentVideo

/-- Whether a search outcome is one of the three failure shapes handled by
`playSong`: a thrown error, a truthy `data.error` payload, or a payload
whose `items` is missing or empty. -/
def ytFailed : YtOutcome → Bool
  | .thrown _ => true
  | .payload err items =>
      err || (match items with
              | some (_ :: _) => false
              | _ => true)

/-! ## Theorems for the claims -/

/-- C1: for every generation-API response whose text, after removing all
```json and ``` fence tokens and trimming, parses as a JSON array, the
songs state becomes exactly that parsed array (same elements, same order)
and the error message ends up empty. -/
theorem C1_parsed_array_replaces_songs (apiKey : Option String)
    (mood text : String) (parse : String → Option Json) (l : List Json)
    (s : RecState) (hm : jsTrim mood ≠ "") (hk : optTruthy apiKey = true)
    (hp : parse (stripFences text) = some (.arr l)) :
    (getRecommendations apiKey mood (.ok text) parse s).state.songs
        = some (.arr l) ∧
    (getRecommendations apiKey mood (.ok text) parse s).state.error = "" := by
  simp [getRecommendations, hm, hk, hp]

theorem C1_witness :
    (jsTrim "happy" ≠ "") ∧ optTruthy (some "k") = true ∧
    (fun t => if t == "[]" then some (Json.arr []) else none)
        (stripFences "```json[]```") = some (.arr []) ∧
    ((getRecommendations (some "k") "happy" (.ok "```json[]```")
        (fun t => if t == "[]" then some (Json.arr []) else none)
        initRecState).state.songs = some (.arr []) ∧
     (getRecommendations (some "k") "happy" (.ok "```json[]```")
        (fun t => if t == "[]" then some (Json.arr []) else none)
        initRecState).state.error = "") :=
  ⟨by decide, by rfl, by rfl,
   C1_parsed_array_replaces_songs (some "k") "happy" "```json[]```"
     (fun t => if t == "[]" then some (Json.arr []) else none) [] initRecState
     (by decide) (by rfl) (by rfl)⟩

/-- C2 (counterexample): the claim that a non-array-of-objects payload "is
not accepted as the new song list" is false: a response text that parses as
the JSON string `"hello"` — valid JSON but not an array of objects — is
stored as the songs state. -/
theorem C2_counterexample :
    isArrayOfObjects (Json.str "hello") = false ∧
    (getRecommendations (some "k") "happy" (.ok "\x22hello\x22")
        (fun t => if t == "\x22hello\x22" then some (.str "hello") else none)
        initRecState).state.songs = some (.str "hello") :=
  ⟨rfl, rfl⟩

/-- C2 (amended): the recommendation flow performs no shape validation on
the parsed payload: any text that parses as valid JSON, array or not, is
accepted and stored as the new song list. -/
theorem C2_amended_any_parsed_json_accepted (apiKey : Option String)
    (mood text : String) (parse : String → Option Json) (j : Json)
    (s : RecState) (hm : jsTrim mood ≠ "") (hk : optTruthy apiKey = true)
    (hp : parse (stripFences text) = some j) :
    (getRecommendations apiKey mood (.ok text) parse s).state.songs
      = some j := by
  simp [getRecommendations, hm, hk, hp]

theorem C2_amended_witness :
    (jsTrim "calm" ≠ "") ∧ optTruthy (some "k") = true ∧
    (fun t => if t == "7" then some (Json.num 7) else none)
        (stripFences "7") = some (Json.num 7) ∧
    (getRecommendations (some "k") "calm" (.ok "7")
        (fun t => if t == "7" then some (Json.num 7) else none)
        initRecState).state.songs = some (Json.num 7) :=
  ⟨by decide, by rfl, by rfl,
   C2_amended_any_parsed_json_accepted (some "k") "calm" "7"
     (fun t => if t == "7" then some (Json.num 7) else none) (Json.num 7)
     initRecState (by decide) (by rfl) (by rfl)⟩

/-- C3: a generation response whose stripped text fails to parse as JSON
leaves songs at `null`, sets the fixed malformed-response message, and
issues exactly one network call (no retry). -/
theorem C3_parse_failure_sets_malformed_error (apiKey : Option String)
    (mood text : String) (parse : String → Option Json) (s : RecState)
    (hm : jsTrim mood ≠ "") (hk : optTruthy apiKey = true)
    (hp : parse (stripFences text) = none) :
    getRecommendations apiKey mood (.ok text) parse s =
      { state :=
          { songs := none, loading := false,
            error :=
              "Received a malformed response from Gemini. Please try again." },
        netCalls := 1 } := by
  simp [getRecommendations, hm, hk, hp]

theorem C3_witness :
    (jsTrim "sad" ≠ "") ∧ optTruthy (some "k") = true ∧
    (fun _ => (none : Option Json)) (stripFences "not json") = none ∧
    getRecommendations (some "k") "sad" (.ok "not json")
        (fun _ => none) initRecState =
      { state :=
          { songs := none, loading := false,
            error :=
              "Received a malformed response from Gemini. Please try again." },
        netCalls := 1 } :=
  ⟨by decide, by rfl, by rfl,
   C3_parse_failure_sets_malformed_error (some "k") "sad" "not json"
     (fun _ => none) initRecState (by decide) (by rfl) (by rfl)⟩

/-- C4: with non-empty trimmed mood text and an absent (falsy) generation
credential, `getRecommendations` sets the specific missing-key message and
returns with zero network calls, leaving loading, songs and everything
else unchanged. -/
theorem C4_missing_key_short_circuit (apiKey : Option String) (mood : String)
    (net : Except JsError String) (parse : String → Option Json)
    (s : RecState) (hm : jsTrim mood ≠ "") (hk : optTruthy apiKey = false) :
    getRecommendations apiKey mood net parse s =
      { state := { s with
          error := "Please provide a Gemini API Key to get recommendations." },
        netCalls := 0 } := by
  simp [getRecommendations, hm, hk]

theorem C4_witness :
    (jsTrim "happy" ≠ "") ∧ optTruthy none = false ∧
    getRecommendations none "happy" (.ok "[]") (fun _ => none)
        initRecState =
      { state := { initRecState with
          error := "Please provide a Gemini API Key to get recommendations." },
        netCalls := 0 } :=
  ⟨by decide, by rfl,
   C4_missing_key_short_circuit none "happy" (.ok "[]") (fun _ => none)
     initRecState (by decide) (by rfl)⟩

/-- C5: with a configured playback credential, every failing search outcome
(thrown error, truthy error payload, or missing/empty items) leaves the
overlay closed — `playing` ends false, `currentVideo` is untouched — and
opens exactly the external search-results URL built from the same song
title and artist, after one network call. -/
theorem C5_failure_keeps_overlay_closed (enc : String → String)
    (key : Option String) (resp : YtOutcome) (song : Song) (s : PlayState)
    (hk : missingYtKey key = false) (hf : ytFailed resp = true) :
    (playSong enc key resp song s).state.playing = false ∧
    (playSong enc key resp song s).state.currentVideo = s.currentVideo ∧
    overlayVisible (playSong enc key resp song s).state = false ∧
    (playSong enc key resp song s).opened = [fallbackUrl enc song] ∧
    (playSong enc key resp song s).netCalls = 1 := by
  cases resp with
  | thrown e => simp [playSong, hk, overlayVisible]
  | payload err items =>
    cases err with
    | true => simp [playSong, hk, overlayVisible]
    | false =>
      match items with
      | none => simp [playSong, hk, overlayVisible]
      | some [] => simp [playSong, hk, overlayVisible]
      | some (v :: rest) => simp [ytFailed] at hf

theorem C5_witness :
    missingYtKey (some "realkey") = false ∧
    ytFailed (.payload false (some [])) = true ∧
    ((playSong (fun q => q) (some "realkey") (.payload false (some []))
        { title := "Song", artist := "Artist" }
        { playing := false, currentVideo := none }).state.playing = false ∧
     (playSong (fun q => q) (some "realkey") (.payload false (some []))
        { title := "Song", artist := "Artist" }
        { playing := false, currentVideo := none }).state.currentVideo
          = none ∧
     overlayVisible (playSong (fun q => q) (some "realkey")
        (.payload false (some [])) { title := "Song", artist := "Artist" }
        { playing := false, currentVideo := none }).state = false ∧
     (playSong (fun q => q) (some "realkey") (.payload false (some []))
        { title := "Song", artist := "Artist" }
        { playing := false, currentVideo := none }).opened
          = [fallbackUrl (fun q => q) { title := "Song", artist := "Artist" }] ∧
     (playSong (fun q => q) (some "realkey") (.payload false (some []))
        { title := "Song", artist := "Artist" }
        { playing := false, currentVideo := none }).netCalls = 1) :=
  ⟨by decide, by rfl,
   C5_failure_keeps_overlay_closed (fun q => q) (some "realkey")
     (.payload false (some [])) { title := "Song", artist := "Artist" }
     { playing := false, currentVideo := none } (by decide) (by rfl)⟩

/-- C6: with no playback credential configured, `playSong` issues no
network call, opens exactly the fallback external search link, and leaves
the playback state unchanged. -/
theorem C6_no_credential_fallback (enc : String → String)
    (key : Option String) (resp : YtOutcome) (song : Song) (s : PlayState)
    (hk : optTruthy key = false) :
    playSong enc key resp song s =
      { state := s, opened := [fallbackUrl enc song], netCalls := 0 } := by
  have h : missingYtKey key = true := by simp [missingYtKey, hk]
  simp [playSong, h]

theorem C6_witness :
    optTruthy none = false ∧
    playSong (fun q => q) none (.payload false (some ["vid"]))
        { title := "Song", artist := "Artist" }
        { playing := false, currentVideo := none } =
      { state := { playing := false, currentVideo := none },
        opened := [fallbackUrl (fun q => q)
          { title := "Song", artist := "Artist" }],
        netCalls := 0 } :=
  ⟨by rfl,
   C6_no_credential_fallback (fun q => q) none
     (.payload false (some ["vid"])) { title := "Song", artist := "Artist" }
     { playing := false, currentVideo := none } (by rfl)⟩

/-- C7: with empty-after-trimming mood text, `getRecommendations` returns
immediately: no network call and the entire state (loading, songs, error)
unchanged. -/
theorem C7_blank_mood_noop (apiKey : Option String) (mood : String)
    (net : Except JsError String) (parse : String → Option Json)
    (s : RecState) (hm : jsTrim mood = "") :
    getRecommendations apiKey mood net parse s =
      { state := s, netCalls := 0 } := by
  simp [getRecommendations, hm]

theorem C7_witness :
    jsTrim "   " = "" ∧
    getRecommendations (some "k") "   " (.ok "[]") (fun _ => none)
        initRecState = { state := initRecState, netCalls := 0 } :=
  ⟨by decide,
   C7_blank_mood_noop (some "k") "   " (.ok "[]") (fun _ => none)
     initRecState (by decide)⟩

/-- C8: a thrown transport/SDK error makes `getRecommendations` set the
error to `"Failed: "` followed by the thrown message when it is available
and non-empty, and to the generic `"Failed: Check API key"` hint when the
message is absent or empty; in both cases loading ends false. -/
theorem C8_thrown_error_message (apiKey : Option String) (mood : String)
    (parse : String → Option Json) (s : RecState) (e : JsError)
    (hm : jsTrim mood ≠ "") (hk : optTruthy apiKey = true) :
    (∀ m, e.message = some m → m ≠ "" →
      (getRecommendations apiKey mood (.error e) parse s).state.error
        = "Failed: " ++ m) ∧
    ((e.message = none ∨ e.message = some "") →
      (getRecommendations apiKey mood (.error e) parse s).state.error
        = "Failed: Check API key") ∧
    (getRecommendations apiKey mood (.error e) parse s).state.loading
      = false := by
  refine ⟨?_, ?_, ?_⟩
  · intro m hmsg hne
    simp [getRecommendations, hm, hk, messageOr, hmsg, hne]
  · intro hmsg
    rcases hmsg with h | h <;> simp [getRecommendations, hm, hk, messageOr, h]
  · simp [getRecommendations, hm, hk]

theorem C8_witness :
    (jsTrim "happy" ≠ "") ∧ optTruthy (some "k") = true ∧
    ((∀ m, (JsError.mk (some "boom")).message = some m → m ≠ "" →
      (getRecommendations (some "k") "happy" (.error ⟨some "boom"⟩)
          (fun _ => none) initRecState).state.error = "Failed: " ++ m) ∧
     (((JsError.mk (some "boom")).message = none ∨
       (JsError.mk (some "boom")).message = some "") →
      (getRecommendations (some "k") "happy" (.error ⟨some "boom"⟩)
          (fun _ => none) initRecState).state.error
        = "Failed: Check API key") ∧
     (getRecommendations (some "k") "happy" (.error ⟨some "boom"⟩)
          (fun _ => none) initRecState).state.loading = false) :=
  ⟨by decide, by rfl,
   C8_thrown_error_message (some "k") "happy" (fun _ => none) initRecState
     ⟨some "boom"⟩ (by decide) (by rfl)⟩

/-- C9: `closePlayer` clears both the video identifier (to `null`) and the
visibility flag (to `false`) in one transition, the overlay is then not
visible, and a subsequent successful playback lookup sets both again. -/
theorem C9_closePlayer_clears_both (s : PlayState) (enc : String → String)
    (key : Option String) (song : Song) (v : String) (rest : List String)
    (hk : missingYtKey key = false) :
    closePlayer s = { playing := false, currentVideo := none } ∧
    overlayVisible (closePlayer s) = false ∧
    (playSong enc key (.payload false (some (v :: rest))) song
        (closePlayer s)).state
      = { playing := true, currentVideo := some v } := by
  refine ⟨rfl, rfl, ?_⟩
  simp [playSong, hk, closePlayer]

theorem C9_witness :
    missingYtKey (some "realkey") = false ∧
    (closePlayer { playing := true, currentVideo := some "old" }
        = { playing := false, currentVideo := none } ∧
     overlayVisible (closePlayer { playing := true, currentVideo := some "old" })
        = false ∧
     (playSong (fun q => q) (some "realkey")
        (.payload false (some ["new"])) { title := "Song", artist := "Artist" }
        (closePlayer { playing := true, currentVideo := some "old" })).state
        = { playing := true, currentVideo := some "new" }) :=
  ⟨by decide,
   C9_closePlayer_clears_both { playing := true, currentVideo := some "old" }
     (fun q => q) (some "realkey") { title := "Song", artist := "Artist" }
     "new" [] (by decide)⟩

/-- C10: a playback credential containing the placeholder substring
`your_youtube_api_key` is treated exactly like an absent credential:
`playSong` produces the same result as with no key at all — the fallback
external link, no network call, state untouched. -/
theorem C10_placeholder_key_like_absent (enc : String → String)
    (key : String) (resp : YtOutcome) (song : Song) (s : PlayState)
    (hk : jsIncludes key "your_youtube_api_key" = true) :
    playSong enc (some key) resp song s = playSong enc none resp song s ∧
    playSong enc (some key) resp song s =
      { state := s, opened := [fallbackUrl enc song], netCalls := 0 } := by
  have h : missingYtKey (some key) = true := by simp [missingYtKey, hk]
  have h₀ : missingYtKey (none : Option String) = true := rfl
  constructor
  · simp [playSong, h, h₀]
  · simp [playSong, h]

theorem C10_witness :
    jsIncludes "your_youtube_api_key_here" "your_youtube_api_key" = true ∧
    (playSong (fun q => q) (some "your_youtube_api_key_here")
        (.payload false (some ["vid"])) { title := "Song", artist := "Artist" }
        { playing := false, currentVideo := none }
      = playSong (fun q => q) none (.payload false (some ["vid"]))
        { title := "Song", artist := "Artist" }
        { playing := false, currentVideo := none } ∧
     playSong (fun q => q) (some "your_youtube_api_key_here")
        (.payload false (some ["vid"])) { title := "Song", artist := "Artist" }
        { playing := false, currentVideo := none }
      = { state := { playing := false, currentVideo := none },
          opened := [fallbackUrl (fun q => q)
            { title := "Song", artist := "Artist" }],
          netCalls := 0 }) :=
  ⟨by decide,
   C10_placeholder_key_like_absent (fun q => q) "your_youtube_api_key_here"
     (.payload false (some ["vid"])) { title := "Song", artist := "Artist" }
     { playing := false, currentVideo := none } (by decide)⟩

end MoodMelody
